import Mathlib

/-!
# Verification of the input-state synchronization core

Shallow embedding of the input/state synchronization core of the
`vibe-coding-starter-pack-3d-multiplayer` client:

* `client/src/simulation.ts` — the bot load-test driver (`buildInput`,
  `animationFromInput`, `tickClient`, `spawnClient`'s initial state, the
  bot `onConnect`/`onDisconnect` handlers);
* `client/src/App.tsx` — the interactive client (`determineAnimation`,
  `sendInput` and its transmission gate, the `gameLoop`, the table
  callbacks, `onSubscriptionApplied` backfill merge, `onConnect`,
  `onDisconnect`);
* `client/src/components/JoinGameDialog.tsx` — `handleSubmit`.

JavaScript numbers are embedded as `ℚ` (rotation angles, timestamps,
random draws) or `Nat`/`Int` where the program only ever holds integral
values (sequence numbers, countdowns).  `Math.random()` outcomes are
passed in explicitly: as a `ℚ` in `[0,1)` where the raw value matters,
or as the `Fin n` result of `Math.floor(Math.random() * n)`.
-/

namespace Vibe

/-- The exact value of the IEEE-754 double `Math.PI`
    (3.141592653589793…, i.e. 884279719003555 / 2^48). -/
def mathPI : ℚ := 884279719003555 / 281474976710656

/-- `Vector3` from `generated/types` as used by the client: three numeric
    components. -/
structure Vector3 where
  x : ℚ
  y : ℚ
  z : ℚ
deriving DecidableEq, Repr

/-- `InputState` from `generated/types`: the ControlState snapshot sent over
    the wire (four movement flags, sprint, jump, attack, castSpell, and a
    sequence number). -/
structure InputState where
  forward : Bool
  backward : Bool
  left : Bool
  right : Bool
  sprint : Bool
  jump : Bool
  attack : Bool
  castSpell : Bool
  sequence : Nat
deriving DecidableEq, Repr

/-- The argument record of the `updatePlayerInput` reducer call:
    `{ input, clientPos, clientRot, clientAnimation }`. -/
structure UpdateArgs where
  input : InputState
  clientPos : Vector3
  clientRot : Vector3
  clientAnimation : String
deriving DecidableEq, Repr

/-- `PlayerData` row as used by `App.tsx` (identity modelled by its hex
    string, which is the map key the client uses). -/
structure PlayerData where
  identity : String
  username : String
  characterClass : String
  position : Vector3
  rotation : Vector3
  currentAnimation : String
  health : ℚ
  mana : ℚ
deriving DecidableEq, Repr

/- ## simulation.ts : the bot driver -/

/-- `DirectionKey` from simulation.ts. -/
inductive DirectionKey where
  | forward
  | backward
  | left
  | right
deriving DecidableEq, Repr

/-- `DIRECTIONS` array from simulation.ts. -/
def DIRECTIONS : List DirectionKey :=
  [.forward, .backward, .left, .right]

/-- `randomItem(arr)` = `arr[Math.floor(Math.random() * arr.length)]`,
    with the floored draw passed in as `k : Fin arr.length`. -/
def randomItem {α : Type} (arr : List α) (k : Fin arr.length) : α :=
  arr.get k

/-- simulation.ts `buildInput(dir, seq)`.  The `Math.random() < 0.3` sprint
    roll takes the raw draw `sprintRoll ∈ [0,1)` as a parameter. -/
def buildInput (dir : DirectionKey) (seq : Nat) (sprintRoll : ℚ) : InputState :=
  { forward := dir == .forward
    backward := dir == .backward
    left := dir == .left
    right := dir == .right
    sprint := decide (sprintRoll < 3/10)
    jump := false
    attack := false
    castSpell := false
    sequence := seq }

/-- simulation.ts `animationFromInput(input)`. -/
def animationFromInput (input : InputState) : String :=
  if !input.forward && !input.backward && !input.left && !input.right then
    "idle"
  else
    let pre := if input.sprint then "run" else "walk"
    if input.forward then pre ++ "-forward"
    else if input.backward then pre ++ "-back"
    else if input.left then pre ++ "-left"
    else pre ++ "-right"

/-- simulation.ts `ClientState` (the bot session).  `conn` is `none` until
    `onConnect` assigns the connection; `tickHandle` is `none` while no
    interval timer is armed. -/
structure ClientState where
  id : Nat
  conn : Option Unit
  registered : Bool
  sequence : Nat
  tickHandle : Option Unit
  direction : DirectionKey
  dirChangeCountdown : Int
  rotation : ℚ
deriving DecidableEq, Repr

/-- The random draws consumed by one `tickClient` call: the
    `randomItem(DIRECTIONS)` index, the `Math.floor(Math.random() * 20)`
    countdown draw, the raw jitter draw, and the raw sprint draw. -/
structure BotRand where
  dirIdx : Fin DIRECTIONS.length
  countdownDraw : Fin 20
  jitter : ℚ
  sprintRoll : ℚ
deriving DecidableEq, Repr

/-- simulation.ts `rotMap` inside `tickClient`:
    forward ↦ 0, backward ↦ π, left ↦ π/2, right ↦ −π/2. -/
def rotMap : DirectionKey → ℚ
  | .forward => 0
  | .backward => mathPI
  | .left => mathPI / 2
  | .right => -(mathPI / 2)

/-- The direction-switch block of `tickClient` (the body of
    `if (state.dirChangeCountdown <= 0)`): draw a new direction, re-draw
    the countdown as `5 + Math.floor(Math.random() * 20)`, and set
    rotation to face the direction plus `(Math.random() - 0.5) * 0.5`. -/
def redrawDirection (s : ClientState) (r : BotRand) : ClientState :=
  let dir := randomItem DIRECTIONS r.dirIdx
  { s with
    direction := dir
    dirChangeCountdown := 5 + (r.countdownDraw.val : Int)
    rotation := rotMap dir + (r.jitter - 1/2) * (1/2) }

/-- simulation.ts `tickClient(state)`: returns the updated state and the
    `updatePlayerInput` call transmitted, if any. -/
def tickClient (s : ClientState) (r : BotRand) : ClientState × Option UpdateArgs :=
  if s.conn.isNone || !s.registered then (s, none)
  else
    let s1 := { s with dirChangeCountdown := s.dirChangeCountdown - 1 }
    let s2 := if s1.dirChangeCountdown ≤ 0 then redrawDirection s1 r else s1
    let s3 := { s2 with sequence := s2.sequence + 1 }
    let input := buildInput s3.direction s3.sequence r.sprintRoll
    let clientPos : Vector3 := ⟨0, 0, 0⟩
    let clientRot : Vector3 := ⟨0, s3.rotation, 0⟩
    (s3, some { input := input, clientPos := clientPos, clientRot := clientRot,
                clientAnimation := animationFromInput input })

/-- The initial bot session state built in simulation.ts `spawnClient`
    (the `Partial<ClientState>` literal): `registered:false`, `sequence:0`,
    no tick handle, a random initial direction, countdown
    `3 + Math.floor(Math.random() * 10)`, rotation 0, no connection yet. -/
def spawnClientState (clientId : Nat) (dirIdx : Fin DIRECTIONS.length)
    (cdDraw : Fin 10) : ClientState :=
  { id := clientId
    conn := none
    registered := false
    sequence := 0
    tickHandle := none
    direction := randomItem DIRECTIONS dirIdx
    dirChangeCountdown := 3 + (cdDraw.val : Int)
    rotation := 0 }

/-- simulation.ts bot `onDisconnect`: clear the interval timer if armed. -/
def botOnDisconnect (s : ClientState) : ClientState :=
  if s.tickHandle.isSome then { s with tickHandle := none } else s

/-- Run a bot session over a list of tick firings, collecting every
    transmitted `updatePlayerInput` call in order. -/
def runClient (s : ClientState) : List BotRand → ClientState × List UpdateArgs
  | [] => (s, [])
  | r :: rs =>
    let step := tickClient s r
    let rest := runClient step.1 rs
    (rest.1, step.2.toList ++ rest.2)

/- ## App.tsx : the interactive client -/

/-- App.tsx `determineAnimation(input)`: action flags first, then `idle`
    when no movement flag is set, otherwise a single authoritative
    direction chosen by the source's if/else-if chain (the local variable
    `direction` is initialised to `'forward'`, so the final else keeps
    `"forward"`), prefixed by `run`/`walk` according to sprint. -/
def determineAnimation (input : InputState) : String :=
  if input.attack then "attack1"
  else if input.castSpell then "cast"
  else if input.jump then "jump"
  else
    let isMoving := input.forward || input.backward || input.left || input.right
    if !isMoving then "idle"
    else
      let direction :=
        if input.forward && !input.backward then "forward"
        else if input.backward && !input.forward then "back"
        else if input.left && !input.right then "left"
        else if input.right && !input.left then "right"
        else if input.forward && input.left then "left"
        else if input.forward && input.right then "right"
        else if input.backward && input.left then "left"
        else if input.backward && input.right then "right"
        else "forward"
      let moveType := if input.sprint then "run" else "walk"
      moveType ++ "-" ++ direction

/-- The `changed` loop of App.tsx `sendInput`: `for (const key in
    currentInputState)` compares all nine fields against the last sent
    snapshot.  `lastSentInputState` starts as the empty partial `{}`, so
    with no previous send every comparison is against `undefined` and
    differs. -/
def inputDiffers (cur : InputState) : Option InputState → Bool
  | none => true
  | some l =>
    (cur.forward != l.forward) || (cur.backward != l.backward) ||
    (cur.left != l.left) || (cur.right != l.right) ||
    (cur.sprint != l.sprint) || (cur.jump != l.jump) ||
    (cur.attack != l.attack) || (cur.castSpell != l.castSpell) ||
    (cur.sequence != l.sequence)

/-- The explicit sequence comparison of App.tsx `sendInput`:
    `currentInputState.sequence !== lastSentInputState.current.sequence`
    (against the empty partial, `undefined` differs from any number). -/
def sequenceDiffers (cur : InputState) : Option InputState → Bool
  | none => true
  | some l => cur.sequence != l.sequence

/-- The transmission gate of App.tsx `sendInput`:
    `if (changed || currentInputState.sequence !== lastSent.sequence)`. -/
def sendInputGate (cur : InputState) (last : Option InputState) : Bool :=
  inputDiffers cur last || sequenceDiffers cur last

/-- The state of the interactive client relevant to the synchronization
    core: the module-level `conn` handle, the refs (`identityRef`,
    `connectedRef`, `localPlayerRef`, `currentInputRef`,
    `lastSentInputState`, `playerRotationRef`, `animationFrameIdRef`), the
    game-loop local `lastSendTime`, and the React state (`identity`,
    `connected`, `players`, `localPlayer`, `statusMessage`).  Identities
    are modelled by their hex strings. -/
structure AppState where
  conn : Bool
  identityRef : Option String
  connectedRef : Bool
  localPlayerRef : Option PlayerData
  currentInput : InputState
  lastSentInput : Option InputState
  playerRotation : Vector3
  animationFrameId : Option Nat
  lastSendTime : ℚ
  identity : Option String
  connected : Bool
  players : List (String × PlayerData)
  localPlayer : Option PlayerData
  statusMessage : String
deriving DecidableEq, Repr

/-- App.tsx `sendInput(currentInputState)`: guard on connection, build the
    position/rotation/animation payload, and transmit iff the gate fires,
    updating `lastSentInputState` only on a send. -/
def sendInput (s : AppState) : AppState × Option UpdateArgs :=
  if !s.conn || s.identityRef.isNone || !s.connectedRef then (s, none)
  else
    let currentPosition :=
      match s.localPlayerRef with
      | some p => p.position
      | none => ⟨0, 0, 0⟩
    let currentRotation := s.playerRotation
    let currentAnimation := determineAnimation s.currentInput
    if sendInputGate s.currentInput s.lastSentInput then
      ({ s with lastSentInput := some s.currentInput },
       some { input := s.currentInput, clientPos := currentPosition,
              clientRot := currentRotation, clientAnimation := currentAnimation })
    else (s, none)

/-- One firing of the App.tsx `gameLoop` at clock value `now`
    (`performance.now()`): bail out and cancel the animation frame when
    the session is not connected; otherwise, if at least 50 ms elapsed
    since the last send, bump the sequence and call `sendInput`; finally
    re-arm `requestAnimationFrame` (fresh handle modelled as `some 1`). -/
def gameLoopStep (s : AppState) (now : ℚ) : AppState × Option UpdateArgs :=
  if !s.connectedRef || !s.conn || s.identityRef.isNone then
    ((if s.animationFrameId.isSome then { s with animationFrameId := none } else s),
     none)
  else
    let sent :=
      if 50 ≤ now - s.lastSendTime then
        let sBumped :=
          { s with currentInput :=
              { s.currentInput with sequence := s.currentInput.sequence + 1 } }
        let step := sendInput sBumped
        ({ step.1 with lastSendTime := now }, step.2)
      else (s, none)
    ({ sent.1 with animationFrameId := some 1 }, sent.2)

/-- The key codes the App.tsx `keyMap` cares about, plus `other` for any
    code outside the map. -/
inductive KeyCode where
  | keyW
  | keyS
  | keyA
  | keyD
  | shiftLeft
  | space
  | other
deriving DecidableEq, Repr

/-- The boolean `InputState` fields reachable through `keyMap` (all but
    `sequence` and `castSpell`; `attack` is driven by the mouse). -/
inductive InputAction where
  | forward
  | backward
  | left
  | right
  | sprint
  | jump
deriving DecidableEq, Repr

/-- App.tsx `keyMap`: `KeyW/KeyS/KeyA/KeyD/ShiftLeft/Space` to actions. -/
def keyMap : KeyCode → Option InputAction
  | .keyW => some .forward
  | .keyS => some .backward
  | .keyA => some .left
  | .keyD => some .right
  | .shiftLeft => some .sprint
  | .space => some .jump
  | .other => none

/-- Write one movement/action flag of the shared `currentInputRef`. -/
def setAction (i : InputState) (a : InputAction) (v : Bool) : InputState :=
  match a with
  | .forward => { i with forward := v }
  | .backward => { i with backward := v }
  | .left => { i with left := v }
  | .right => { i with right := v }
  | .sprint => { i with sprint := v }
  | .jump => { i with jump := v }

/-- App.tsx `handleKeyDown` (non-repeat): set the mapped flag to true. -/
def handleKeyDown (code : KeyCode) (s : AppState) : AppState :=
  match keyMap code with
  | none => s
  | some a => { s with currentInput := setAction s.currentInput a true }

/-- App.tsx `handleKeyUp`: set the mapped flag to false. -/
def handleKeyUp (code : KeyCode) (s : AppState) : AppState :=
  match keyMap code with
  | none => s
  | some a => { s with currentInput := setAction s.currentInput a false }

/-- App.tsx `handleMouseDown` for button 0: `attack := true`. -/
def handleMouseDown (s : AppState) : AppState :=
  { s with currentInput := { s.currentInput with attack := true } }

/-- App.tsx `handleMouseUp` for button 0: `attack := false`. -/
def handleMouseUp (s : AppState) : AppState :=
  { s with currentInput := { s.currentInput with attack := false } }

/-- App.tsx `handleMouseMove` under pointer lock: yaw accumulates freely,
    pitch is clamped to ±π/2.5. -/
def handleMouseMove (dx dy : ℚ) (pointerLocked : Bool) (s : AppState) : AppState :=
  if pointerLocked then
    let sensitivity : ℚ := 2/1000
    { s with playerRotation :=
        { x := max (-(mathPI / (5/2)))
            (min (mathPI / (5/2)) (s.playerRotation.x - dy * sensitivity))
          y := s.playerRotation.y - dx * sensitivity
          z := s.playerRotation.z } }
  else s

/-- One event-loop step of the interactive client: an input event or a
    `requestAnimationFrame` firing at clock value `now`. -/
inductive AppStep where
  | keyDown (code : KeyCode)
  | keyUp (code : KeyCode)
  | mouseDown
  | mouseUp
  | mouseMove (dx dy : ℚ) (pointerLocked : Bool)
  | frame (now : ℚ)
deriving DecidableEq, Repr

/-- Dispatch one `AppStep`; only `frame` can transmit. -/
def appStep (s : AppState) : AppStep → AppState × Option UpdateArgs
  | .keyDown code => (handleKeyDown code s, none)
  | .keyUp code => (handleKeyUp code s, none)
  | .mouseDown => (handleMouseDown s, none)
  | .mouseUp => (handleMouseUp s, none)
  | .mouseMove dx dy locked => (handleMouseMove dx dy locked s, none)
  | .frame now => gameLoopStep s now

/-- Run the interactive client over a list of event-loop steps, collecting
    every transmitted `updatePlayerInput` call in order. -/
def runApp (s : AppState) : List AppStep → AppState × List UpdateArgs
  | [] => (s, [])
  | st :: rest =>
    let step := appStep s st
    let tail := runApp step.1 rest
    (tail.1, step.2.toList ++ tail.2)

/-- JavaScript `Map.prototype.set` semantics on an insertion-ordered
    association list: replace in place when the key exists, else append. -/
def mapSet (m : List (String × PlayerData)) (k : String) (v : PlayerData) :
    List (String × PlayerData) :=
  if m.any (fun p => p.1 == k) then
    m.map (fun p => if p.1 == k then (k, v) else p)
  else m ++ [(k, v)]

/-- The map produced by iterating `conn.db.player.iter()` into a fresh
    `Map` in `onSubscriptionApplied`, keyed by identity hex string. -/
def backfillMap (rows : List PlayerData) : List (String × PlayerData) :=
  rows.foldl (fun m p => mapSet m p.identity p) []

/-- App.tsx `onSubscriptionApplied`'s `setPlayers` updater: populate the
    player map from the backfill rows only when the previous map is empty
    (and the connection handle is live), otherwise keep the previous map
    untouched. -/
def onSubscriptionApplied (rows : List PlayerData) (connLive : Bool)
    (prev : List (String × PlayerData)) : List (String × PlayerData) :=
  if prev.length = 0 && connLive then backfillMap rows else prev

/-- App.tsx `onDisconnect`: null the connection handle, identity refs and
    React identity/connected state, empty the player map, and clear the
    local player record and ref. -/
def appOnDisconnect (reason : String) (s : AppState) : AppState :=
  { s with
    statusMessage := "Disconnected: " ++ reason
    conn := false
    identityRef := none
    connectedRef := false
    localPlayerRef := none
    identity := none
    connected := false
    players := []
    localPlayer := none }

/-- The cleanup of the game-loop `useEffect([connected])`, which React runs
    when `connected` flips (in particular to `false` in `onDisconnect`):
    cancel the pending animation frame, if any. -/
def gameLoopEffectCleanup (s : AppState) : AppState :=
  if s.animationFrameId.isSome then { s with animationFrameId := none } else s

/-- The full client-side transition to Disconnected: the `onDisconnect`
    callback followed by the effect cleanup that its `setConnected(false)`
    triggers. -/
def appDisconnectTransition (reason : String) (s : AppState) : AppState :=
  gameLoopEffectCleanup (appOnDisconnect reason s)

/- ## Connection-establishment effect traces (for the ordering claim) -/

/-- The externally visible effects issued while establishing a session, at
    the granularity the ordering invariant cares about: registering a
    table-change callback (`onInsert`/`onUpdate`/`onDelete`), issuing the
    subscription query (`.subscribe("SELECT * FROM player")`), or anything
    else (state/ref writes, listener setup, UI changes). -/
inductive ConnectEffect where
  | registerInsertCallback
  | registerUpdateCallback
  | registerDeleteCallback
  | issueSubscriptionQuery
  | localEffect
deriving DecidableEq, Repr

/-- Whether an effect registers a table-change callback. -/
def ConnectEffect.isCallbackRegistration : ConnectEffect → Bool
  | .registerInsertCallback => true
  | .registerUpdateCallback => true
  | .registerDeleteCallback => true
  | _ => false

/-- The effect sequence of App.tsx `onConnect`, in source order: the six
    state/ref assignments, then `registerTableCallbacks()` (which attaches
    the insert, update and delete callbacks in that order), then
    `subscribeToTables()` (which issues the query), then listener setup
    and the join dialog. -/
def appOnConnectTrace : List ConnectEffect :=
  [ .localEffect, .localEffect, .localEffect, .localEffect, .localEffect,
    .localEffect,
    .registerInsertCallback, .registerUpdateCallback, .registerDeleteCallback,
    .issueSubscriptionQuery,
    .localEffect, .localEffect, .localEffect ]

/-- The effect sequence of the bot `onConnect` in simulation.ts, in source
    order: assign `state.conn`, then `connection.db.player.onInsert(...)`,
    then build the subscription and `.subscribe('SELECT * FROM player')`. -/
def botOnConnectTrace : List ConnectEffect :=
  [ .localEffect, .registerInsertCallback, .issueSubscriptionQuery ]

/- ## JoinGameDialog.tsx -/

/-- The WhiteSpace and LineTerminator code points stripped by JavaScript
    `String.prototype.trim`. -/
def isJsWhitespace (c : Char) : Bool :=
  c == ' ' || c == '\t' || c == '\n' || c == '\x0b' || c == '\x0c' ||
  c == '\r' || c == ' ' || c == ' ' ||
  (' ' ≤ c && c ≤ ' ') ||
  c == ' ' || c == ' ' || c == ' ' || c == ' ' ||
  c == '　' || c == '﻿'

/-- JavaScript `String.prototype.trim`: drop leading and trailing
    whitespace. -/
def jsTrim (s : String) : String :=
  ⟨((s.data.dropWhile isJsWhitespace).reverse.dropWhile isJsWhitespace).reverse⟩

/-- JoinGameDialog.tsx `handleSubmit`: `username.trim() ||
    Player${Math.floor(Math.random() * 1000)}` — the trimmed text when it
    is non-empty (JS `||` treats the empty string as falsy), else a
    generated name; the result is what `onJoin` receives. -/
def handleSubmit (username : String) (nameDraw : Fin 1000) : String :=
  let finalUsername :=
    if jsTrim username = "" then "Player" ++ toString nameDraw.val
    else jsTrim username
  finalUsername

/- ## Spec-worded definitions used for refinement comparisons -/

/-- Modelled from the spec's words (section 4.2): "transmit unconditionally
    whenever sequence number changes from the last *transmitted* value AND
    (any field differs OR the sequence advanced)".  Against the initial
    empty partial snapshot every comparison differs. -/
def specSendGate (cur : InputState) (last : Option InputState) : Bool :=
  sequenceDiffers cur last &&
    (inputDiffers cur last ||
      (match last with
       | none => true
       | some l => decide (l.sequence < cur.sequence)))

/-- The single authoritative direction `determineAnimation` actually
    derives from the four movement flags (amended C7): the
    forward/backward axis decides when its two flags differ (forward
    before backward), else the left/right axis decides (left before
    right); when both axes are internally tied the label falls back to
    "forward", except that all four flags set reaches the first composite
    branch and yields "left".  Composite holds such as forward+left
    therefore collapse to the dominant single direction, never to a
    composite label. -/
def amendedDirection (f b l r : Bool) : String :=
  if f && !b then "forward"
  else if b && !f then "back"
  else if l && !r then "left"
  else if r && !l then "right"
  else if f && b && l && r then "left"
  else "forward"

/- ## Concrete sample states for counterexamples and witnesses -/

/-- An `InputState` holding forward and left simultaneously (diagonal
    input), no actions, sprint off. -/
def fwdLeftInput : InputState :=
  { forward := true, backward := false, left := true, right := false,
    sprint := false, jump := false, attack := false, castSpell := false,
    sequence := 0 }

/-- An all-false `InputState` at a given sequence number. -/
def idleInput (seq : Nat) : InputState :=
  { forward := false, backward := false, left := false, right := false,
    sprint := false, jump := false, attack := false, castSpell := false,
    sequence := seq }

/-- A connected, registered interactive-client state whose current input
    differs from the last transmitted snapshot only in the `forward` flag
    while the sequence number is unchanged (both 5). -/
def sameSeqState : AppState :=
  { conn := true
    identityRef := some "c200"
    connectedRef := true
    localPlayerRef := none
    currentInput := { idleInput 5 with forward := true }
    lastSentInput := some (idleInput 5)
    playerRotation := ⟨0, 0, 0⟩
    animationFrameId := some 1
    lastSendTime := 0
    identity := some "c200"
    connected := true
    players := []
    localPlayer := none
    statusMessage := "" }

/-- A disconnected interactive-client state (`connectedRef` false) used to
    exercise the game-loop liveness guard. -/
def staleAppState : AppState :=
  { sameSeqState with connectedRef := false, conn := false, identityRef := none }

/-- A connected, registered bot session one tick away from a direction
    switch. -/
def switchingBotState : ClientState :=
  { id := 1, conn := some (), registered := true, sequence := 7,
    tickHandle := some (), direction := .forward, dirChangeCountdown := 1,
    rotation := 0 }

/-- A bot session with no connection assigned yet. -/
def unconnectedBotState : ClientState :=
  { switchingBotState with conn := none, registered := false }

/-- The random draws for a tick that re-draws the countdown at its maximum:
    direction index 0 (forward), countdown draw 19, jitter and sprint draws
    1/2. -/
def maxCountdownRand : BotRand :=
  { dirIdx := ⟨0, by decide⟩, countdownDraw := ⟨19, by decide⟩,
    jitter := 1/2, sprintRoll := 1/2 }

/-- A sample authoritative player row. -/
def samplePlayer : PlayerData :=
  { identity := "ab01", username := "Alice", characterClass := "Wizard",
    position := ⟨0, 0, 0⟩, rotation := ⟨0, 0, 0⟩,
    currentAnimation := "idle", health := 100, mana := 100 }

/- ## Theorems -/

/-- C10: every ControlState built by the bot driver has exactly one of the
    four movement flags set (the one matching the held direction) and has
    jump, attack and castSpell false, for every direction, sequence number
    and sprint draw — bots never produce diagonal or action input. -/
theorem c10_bot_input_single_direction (dir : DirectionKey) (seq : Nat)
    (sprintRoll : ℚ) :
    ((buildInput dir seq sprintRoll).forward.toNat +
     (buildInput dir seq sprintRoll).backward.toNat +
     (buildInput dir seq sprintRoll).left.toNat +
     (buildInput dir seq sprintRoll).right.toNat = 1) ∧
    (buildInput dir seq sprintRoll).jump = false ∧
    (buildInput dir seq sprintRoll).attack = false ∧
    (buildInput dir seq sprintRoll).castSpell = false := by
  cases dir <;> simp [buildInput] <;> decide

/-- C9: the username handed to `onJoin` by the join dialog is never empty:
    the trimmed input text when that is non-empty, else the generated
    `Player<n>` name with `n < 1000`. -/
theorem c9_join_username_nonempty (username : String) (nameDraw : Fin 1000) :
    handleSubmit username nameDraw ≠ "" ∧
    (jsTrim username ≠ "" → handleSubmit username nameDraw = jsTrim username) ∧
    (jsTrim username = "" →
      handleSubmit username nameDraw = "Player" ++ toString nameDraw.val ∧
      nameDraw.val < 1000) := by
  by_cases h : jsTrim username = ""
  · refine ⟨?_, fun hc => absurd h hc, fun _ => ⟨by simp [handleSubmit, h], nameDraw.isLt⟩⟩
    have heval : handleSubmit username nameDraw = "Player" ++ toString nameDraw.val := by
      simp [handleSubmit, h]
    rw [heval]
    intro hempty
    have hdata : ("Player" ++ toString nameDraw.val).data = "".data :=
      congrArg String.data hempty
    simp [String.data_append] at hdata
  · exact ⟨by simp [handleSubmit, h], fun _ => by simp [handleSubmit, h], fun hc => absurd hc h⟩

/-- C9 witness: on all-whitespace input with random draw 7 the dialog
    passes the generated name "Player7". -/
theorem c9_witness :
    jsTrim "   " = "" ∧
    handleSubmit "   " ⟨7, by decide⟩ = "Player" ++ toString (7 : Nat) := by
  have h := (c9_join_username_nonempty "   " ⟨7, by decide⟩).2.2 (by decide)
  exact ⟨by decide, h.1⟩

/-- C3: in both connection-establishment paths (the interactive client's
    `onConnect` and each bot session's `onConnect`), every table-change
    callback registration occurs strictly before the subscription query is
    issued, and each path issues the query exactly once after registering
    its callbacks (three for the interactive client, one for a bot). -/
theorem c3_callbacks_before_subscription :
    (∀ i j : Fin appOnConnectTrace.length,
        appOnConnectTrace.get i = ConnectEffect.issueSubscriptionQuery →
        (appOnConnectTrace.get j).isCallbackRegistration = true → j < i) ∧
    (∀ i j : Fin botOnConnectTrace.length,
        botOnConnectTrace.get i = ConnectEffect.issueSubscriptionQuery →
        (botOnConnectTrace.get j).isCallbackRegistration = true → j < i) ∧
    appOnConnectTrace.count ConnectEffect.issueSubscriptionQuery = 1 ∧
    botOnConnectTrace.count ConnectEffect.issueSubscriptionQuery = 1 ∧
    appOnConnectTrace.countP (fun e => e.isCallbackRegistration) = 3 ∧
    botOnConnectTrace.countP (fun e => e.isCallbackRegistration) = 1 := by
  decide

/-- C3 witness: in the interactive client's trace the insert-callback
    registration (index 6) precedes the subscription issuance (index 9). -/
theorem c3_witness :
    (⟨6, by decide⟩ : Fin appOnConnectTrace.length) < ⟨9, by decide⟩ :=
  c3_callbacks_before_subscription.1 ⟨9, by decide⟩ ⟨6, by decide⟩
    (by decide) (by decide)

/-- C5: the transition to Disconnected (the `onDisconnect` callback plus the
    effect cleanup its `setConnected(false)` triggers) empties the player
    map, nulls the local-player record and ref, nulls the identity state
    and ref, clears the connected flag and ref, drops the connection
    handle and cancels the animation-frame tick; a bot session's
    `onDisconnect` cancels its interval tick timer. -/
theorem c5_disconnect_clears_state (reason : String) (s : AppState)
    (b : ClientState) :
    (appDisconnectTransition reason s).players = [] ∧
    (appDisconnectTransition reason s).localPlayer = none ∧
    (appDisconnectTransition reason s).localPlayerRef = none ∧
    (appDisconnectTransition reason s).identity = none ∧
    (appDisconnectTransition reason s).identityRef = none ∧
    (appDisconnectTransition reason s).connected = false ∧
    (appDisconnectTransition reason s).connectedRef = false ∧
    (appDisconnectTransition reason s).conn = false ∧
    (appDisconnectTransition reason s).animationFrameId = none ∧
    (botOnDisconnect b).tickHandle = none := by
  cases hb : b.tickHandle <;> cases ha : s.animationFrameId <;>
    simp [appDisconnectTransition, gameLoopEffectCleanup, appOnDisconnect,
      botOnDisconnect, ha, hb]

/-- C4: the backfill merge of `onSubscriptionApplied` is idempotent —
    applying it twice starting from the empty map equals applying it once —
    and it populates the map only when the map is currently empty, so any
    non-empty map (rows already present from insert notifications) is
    returned untouched, never duplicated or overwritten. -/
theorem c4_backfill_idempotent (rows : List PlayerData) (connLive : Bool)
    (prev : List (String × PlayerData)) (hne : prev ≠ []) :
    onSubscriptionApplied rows connLive
        (onSubscriptionApplied rows connLive []) =
      onSubscriptionApplied rows connLive [] ∧
    onSubscriptionApplied rows connLive prev = prev := by
  constructor
  · cases connLive with
    | false => rfl
    | true =>
      show onSubscriptionApplied rows true (backfillMap rows) = backfillMap rows
      unfold onSubscriptionApplied
      split <;> rfl
  · unfold onSubscriptionApplied
    have : prev.length ≠ 0 := fun hz => hne (List.length_eq_zero.mp hz)
    simp [this]

/-- C4 witness: one backfill row over an already-populated one-entry map. -/
theorem c4_witness :
    [("zz", samplePlayer)] ≠ ([] : List (String × PlayerData)) ∧
    onSubscriptionApplied [samplePlayer] true
        (onSubscriptionApplied [samplePlayer] true []) =
      onSubscriptionApplied [samplePlayer] true [] ∧
    onSubscriptionApplied [samplePlayer] true [("zz", samplePlayer)] =
      [("zz", samplePlayer)] :=
  ⟨by decide, c4_backfill_idempotent [samplePlayer] true [("zz", samplePlayer)]
    (by decide)⟩

/-- C6: a tick firing while its session is not Connected-Registered is a
    no-op.  A bot tick with no connection or with the registration flag
    clear returns the state unchanged and transmits nothing; an
    interactive-client frame while disconnected (flag clear, handle null
    or identity null) transmits nothing and leaves the control state, the
    last-sent snapshot and the send timestamp untouched. -/
theorem c6_tick_noop_when_unregistered (s : ClientState) (r : BotRand)
    (a : AppState) (now : ℚ)
    (hbot : s.conn = none ∨ s.registered = false)
    (happ : a.connectedRef = false ∨ a.conn = false ∨ a.identityRef = none) :
    tickClient s r = (s, none) ∧
    (gameLoopStep a now).2 = none ∧
    (gameLoopStep a now).1.currentInput = a.currentInput ∧
    (gameLoopStep a now).1.lastSentInput = a.lastSentInput ∧
    (gameLoopStep a now).1.lastSendTime = a.lastSendTime := by
  have hbg : (s.conn.isNone || !s.registered) = true := by
    rcases hbot with h | h <;> simp [h]
  have hag : (!a.connectedRef || !a.conn || a.identityRef.isNone) = true := by
    rcases happ with h | h | h <;> simp [h]
  have hstep : gameLoopStep a now =
      ((if a.animationFrameId.isSome then { a with animationFrameId := none }
        else a), none) := by
    unfold gameLoopStep; rw [hag]; rfl
  refine ⟨by unfold tickClient; rw [hbg]; rfl, ?_, ?_, ?_, ?_⟩ <;>
    rw [hstep] <;> (first | rfl | (split <;> rfl))

/-- C6 witness: a bot with no connection and a client frame with the
    connected flag clear are both complete no-ops. -/
theorem c6_witness :
    tickClient unconnectedBotState maxCountdownRand = (unconnectedBotState, none) ∧
    (gameLoopStep staleAppState 100).2 = none ∧
    (gameLoopStep staleAppState 100).1.currentInput = staleAppState.currentInput ∧
    (gameLoopStep staleAppState 100).1.lastSentInput = staleAppState.lastSentInput ∧
    (gameLoopStep staleAppState 100).1.lastSendTime = staleAppState.lastSendTime :=
  c6_tick_noop_when_unregistered unconnectedBotState maxCountdownRand
    staleAppState 100 (Or.inl rfl) (Or.inl rfl)

/-- C7 counterexample: the claim says forward+left yields a composite
    direction, but the code derives the plain forward label for it — the
    diagonal forward+left input animates exactly like forward-only input,
    in both the interactive client and the bot driver. -/
theorem c7_counterexample :
    determineAnimation fwdLeftInput = "walk-forward" ∧
    determineAnimation fwdLeftInput =
      determineAnimation { fwdLeftInput with left := false } ∧
    animationFromInput fwdLeftInput = "walk-forward" := by
  decide

/-- C7 (amended): `determineAnimation` treats exactly one direction as
    authoritative; for single flags the labels are forward/back/left/right
    as claimed, but composite flag pairs collapse to the dominant axis
    (forward+left and forward+right give "forward", backward+left and
    backward+right give "back"), the degenerate ties forward+backward and
    left+right fall back to "forward", and only all four flags reach a
    composite branch (yielding "left"); the bot's `animationFromInput`
    resolves with strict priority forward > backward > left > right. -/
theorem c7_single_direction_amended (f b l r sp : Bool) (n : Nat) :
    determineAnimation
        { forward := f, backward := b, left := l, right := r, sprint := sp,
          jump := false, attack := false, castSpell := false, sequence := n } =
      (if !(f || b || l || r) then "idle"
       else (if sp then "run" else "walk") ++ "-" ++ amendedDirection f b l r) ∧
    animationFromInput
        { forward := f, backward := b, left := l, right := r, sprint := sp,
          jump := false, attack := false, castSpell := false, sequence := n } =
      (if !(f || b || l || r) then "idle"
       else (if sp then "run" else "walk") ++ "-" ++
         (if f then "forward" else if b then "back"
          else if l then "left" else "right")) := by
  cases f <;> cases b <;> cases l <;> cases r <;> cases sp <;>
    exact ⟨rfl, rfl⟩

/-- C8 counterexample: a re-drawn direction-hold countdown can be 24 ticks
    (draw 19 on `5 + Math.floor(Math.random() * 20)`), outside the claimed
    3–23 range. -/
theorem c8_counterexample :
    (tickClient switchingBotState maxCountdownRand).1.dirChangeCountdown = 24 ∧
    ¬((tickClient switchingBotState maxCountdownRand).1.dirChangeCountdown ≤ 23) := by
  decide

/-- C8 (amended): the initial countdown drawn in `spawnClient` lies in
    3..12 ticks and every countdown re-drawn on a direction switch lies in
    5..24 ticks; on a switch the new direction is the uniform
    `randomItem` draw over the four directions (the draw map enumerates
    {forward, backward, left, right} bijectively) and the bot's rotation
    is set to face that direction up to a jitter of at most ±0.25 rad. -/
theorem c8_bot_policy_amended (s : ClientState) (r : BotRand)
    (cid : Nat) (dIdx : Fin DIRECTIONS.length) (cd : Fin 10)
    (hconn : s.conn = some ()) (hreg : s.registered = true)
    (hswitch : s.dirChangeCountdown - 1 ≤ 0)
    (hj0 : 0 ≤ r.jitter) (hj1 : r.jitter < 1) :
    (5 ≤ (tickClient s r).1.dirChangeCountdown ∧
     (tickClient s r).1.dirChangeCountdown ≤ 24) ∧
    (3 ≤ (spawnClientState cid dIdx cd).dirChangeCountdown ∧
     (spawnClientState cid dIdx cd).dirChangeCountdown ≤ 12) ∧
    (tickClient s r).1.direction = randomItem DIRECTIONS r.dirIdx ∧
    (List.finRange DIRECTIONS.length).map (randomItem DIRECTIONS) = DIRECTIONS ∧
    |(tickClient s r).1.rotation -
       rotMap ((tickClient s r).1.direction)| ≤ 1/4 := by
  have hguard : (s.conn.isNone || !s.registered) = false := by
    simp [hconn, hreg]
  have htick : tickClient s r =
      (({ redrawDirection { s with dirChangeCountdown := s.dirChangeCountdown - 1 } r
            with sequence := s.sequence + 1 } : ClientState),
        (tickClient s r).2) := by
    unfold tickClient
    rw [hguard]
    simp only [Bool.false_eq_true, if_false]
    rw [if_pos hswitch]
    rfl
  have hcd : (tickClient s r).1.dirChangeCountdown = 5 + (r.countdownDraw.val : Int) := by
    rw [htick]; rfl
  have hdir : (tickClient s r).1.direction = randomItem DIRECTIONS r.dirIdx := by
    rw [htick]; rfl
  have hrot : (tickClient s r).1.rotation =
      rotMap (randomItem DIRECTIONS r.dirIdx) + (r.jitter - 1/2) * (1/2) := by
    rw [htick]; rfl
  have hlt : (r.countdownDraw.val : Int) ≤ 19 := by
    exact_mod_cast Nat.lt_succ_iff.mp r.countdownDraw.isLt
  refine ⟨⟨?_, ?_⟩, ⟨?_, ?_⟩, hdir, by decide, ?_⟩
  · rw [hcd]; omega
  · rw [hcd]; omega
  · show (3 : Int) ≤ 3 + (cd.val : Int)
    omega
  · show (3 : Int) + (cd.val : Int) ≤ 12
    have : (cd.val : Int) ≤ 9 := by exact_mod_cast Nat.lt_succ_iff.mp cd.isLt
    omega
  · rw [hrot, hdir]
    rw [add_sub_cancel_left]
    rw [abs_le]
    constructor <;> nlinarith

/-- C8 witness: a guarded, switching tick with countdown draw 19 and jitter
    draw 1/2 lands on countdown 24 and zero jitter. -/
theorem c8_witness :
    (5 ≤ (tickClient switchingBotState maxCountdownRand).1.dirChangeCountdown ∧
     (tickClient switchingBotState maxCountdownRand).1.dirChangeCountdown ≤ 24) ∧
    (3 ≤ (spawnClientState 1 ⟨0, by decide⟩ ⟨0, by decide⟩).dirChangeCountdown ∧
     (spawnClientState 1 ⟨0, by decide⟩ ⟨0, by decide⟩).dirChangeCountdown ≤ 12) ∧
    (tickClient switchingBotState maxCountdownRand).1.direction =
      randomItem DIRECTIONS maxCountdownRand.dirIdx ∧
    (List.finRange DIRECTIONS.length).map (randomItem DIRECTIONS) = DIRECTIONS ∧
    |(tickClient switchingBotState maxCountdownRand).1.rotation -
       rotMap ((tickClient switchingBotState maxCountdownRand).1.direction)| ≤ 1/4 :=
  c8_bot_policy_amended switchingBotState maxCountdownRand 1
    ⟨0, by decide⟩ ⟨0, by decide⟩ rfl rfl (by decide)
    (by norm_num [maxCountdownRand]) (by norm_num [maxCountdownRand])

/-- The code's transmission gate fires exactly when the current snapshot is
    not the snapshot last transmitted (any of the nine fields differing),
    and always fires when nothing was transmitted yet. -/
lemma sendInputGate_eq_ne (cur : InputState) (last : Option InputState) :
    sendInputGate cur last = !(last == some cur) := by
  cases last with
  | none => rfl
  | some l =>
    rcases cur with ⟨f, b, lf, rg, sp, j, ak, cs, n⟩
    rcases l with ⟨f', b', lf', rg', sp', j', ak', cs', n'⟩
    rw [Bool.eq_iff_iff]
    simp [sendInputGate, inputDiffers, sequenceDiffers, InputState.mk.injEq]
    tauto

/-- C2 counterexample: with the sequence number unchanged from the last
    transmitted snapshot (both 5) but the forward flag differing, the code
    transmits, while the spec's rule — sequence must change AND (any field
    differs or the sequence advanced) — says no transmission occurs. -/
theorem c2_counterexample :
    (sendInput sameSeqState).2.isSome = true ∧
    specSendGate sameSeqState.currentInput sameSeqState.lastSentInput = false := by
  constructor
  · decide
  · decide

/-- C2 (amended): for every call to `sendInput` that passes the connection
    guard, a transmission occurs exactly when the current ControlState is
    not the last transmitted snapshot — i.e. when any of the nine fields
    (sequence included) differs, or when nothing has been transmitted yet;
    a sequence-number change is sufficient but not necessary. -/
theorem c2_transmission_gate_amended (s : AppState) (hconn : s.conn = true)
    (hid : s.identityRef.isSome = true) (hcref : s.connectedRef = true) :
    (sendInput s).2.isSome = !(s.lastSentInput == some s.currentInput) := by
  have hidn : s.identityRef.isNone = false := by
    cases h : s.identityRef with
    | none => rw [h] at hid; simp at hid
    | some v => rfl
  have hguard : (!s.conn || s.identityRef.isNone || !s.connectedRef) = false := by
    rw [hconn, hidn, hcref]; rfl
  unfold sendInput
  rw [hguard]
  simp only [Bool.false_eq_true, if_false]
  rw [← sendInputGate_eq_ne]
  split
  · next hg => simp [hg]
  · next hg => simp at hg; simp [hg]

/-- C2 witness: the amended gate evaluated at the connected sample state. -/
theorem c2_witness :
    (sendInput sameSeqState).2.isSome =
      !(sameSeqState.lastSentInput == some sameSeqState.currentInput) :=
  c2_transmission_gate_amended sameSeqState rfl rfl rfl

/-- A bot tick either does nothing (liveness guard) or increments the
    session sequence number and transmits exactly that number. -/
lemma tickClient_proj (s : ClientState) (r : BotRand) :
    tickClient s r = (s, none) ∨
    ((tickClient s r).1.sequence = s.sequence + 1 ∧
     (tickClient s r).2.map (fun u => u.input.sequence) = some (s.sequence + 1)) := by
  unfold tickClient
  split
  · exact Or.inl rfl
  · right
    dsimp only
    split <;> exact ⟨rfl, rfl⟩

/-- Over any run of a bot session, the final sequence number dominates the
    initial one, every transmitted sequence number exceeds the initial one,
    and the transmitted sequence numbers are pairwise strictly increasing
    in transmission order. -/
lemma runClient_spec (rs : List BotRand) : ∀ s : ClientState,
    s.sequence ≤ (runClient s rs).1.sequence ∧
    (∀ u ∈ (runClient s rs).2, s.sequence < u.input.sequence) ∧
    List.Pairwise (· < ·) ((runClient s rs).2.map (fun u => u.input.sequence)) := by
  induction rs with
  | nil =>
    intro s
    exact ⟨le_refl _, by simp [runClient], by simp [runClient]⟩
  | cons r rs ih =>
    intro s
    obtain ⟨ihle, ihmem, ihpw⟩ := ih (tickClient s r).1
    have hrun1 : (runClient s (r :: rs)).1 = (runClient (tickClient s r).1 rs).1 := rfl
    have hrun2 : (runClient s (r :: rs)).2 =
        (tickClient s r).2.toList ++ (runClient (tickClient s r).1 rs).2 := rfl
    rw [hrun1, hrun2]
    rcases tickClient_proj s r with h | ⟨hseq, hmap⟩
    · have h1 : (tickClient s r).1 = s := by rw [h]
      have h2 : (tickClient s r).2 = none := by rw [h]
      rw [h1] at ihle ihmem ihpw
      rw [h1, h2]
      simp only [Option.toList_none, List.nil_append]
      exact ⟨ihle, ihmem, ihpw⟩
    · obtain ⟨u, hu⟩ : ∃ u, (tickClient s r).2 = some u := by
        cases ho : (tickClient s r).2 with
        | none => rw [ho] at hmap; simp at hmap
        | some u => exact ⟨u, rfl⟩
      have huseq : u.input.sequence = s.sequence + 1 := by
        rw [hu] at hmap; simpa using hmap
      rw [hu]
      simp only [Option.toList_some, List.singleton_append, List.map_cons]
      rw [hseq] at ihle ihmem
      refine ⟨le_trans (Nat.le_succ s.sequence) ihle, ?_, ?_⟩
      · intro v hv
        rcases List.mem_cons.mp hv with hv1 | hv2
        · rw [hv1, huseq]; omega
        · have := ihmem v hv2; omega
      · rw [List.pairwise_cons]
        refine ⟨?_, ihpw⟩
        intro y hy
        obtain ⟨w, hw, hwy⟩ := List.mem_map.mp hy
        have := ihmem w hw
        rw [huseq, ← hwy]
        omega

/-- `sendInput` never mutates the current control state and only ever
    transmits exactly that state. -/
lemma sendInput_proj (s : AppState) :
    (sendInput s).1.currentInput = s.currentInput ∧
    ∀ u ∈ (sendInput s).2, u.input = s.currentInput := by
  unfold sendInput
  split
  · exact ⟨rfl, by simp⟩
  · dsimp only
    split
    · refine ⟨rfl, ?_⟩
      intro u hu
      simp only [Option.mem_def, Option.some.injEq] at hu
      rw [← hu]
    · exact ⟨rfl, by simp⟩

/-- A game-loop frame either leaves the control state untouched and sends
    nothing, or increments the sequence number and transmits (if at all)
    exactly the incremented sequence. -/
lemma gameLoopStep_proj (s : AppState) (now : ℚ) :
    ((gameLoopStep s now).1.currentInput = s.currentInput ∧
     (gameLoopStep s now).2 = none) ∨
    ((gameLoopStep s now).1.currentInput.sequence = s.currentInput.sequence + 1 ∧
     ∀ u ∈ (gameLoopStep s now).2,
       u.input.sequence = s.currentInput.sequence + 1) := by
  unfold gameLoopStep
  split
  · left
    constructor
    · split <;> rfl
    · rfl
  · dsimp only
    split
    · right
      obtain ⟨hcur, hout⟩ := sendInput_proj
        { s with currentInput :=
            { s.currentInput with sequence := s.currentInput.sequence + 1 } }
      constructor
      · show (sendInput _).1.currentInput.sequence = _
        rw [hcur]
      · intro u hu
        have := hout u hu
        rw [this]
    · left
      exact ⟨rfl, rfl⟩

/-- Non-frame event-loop steps (key and mouse handlers) never touch the
    sequence number and never transmit; frames behave as
    `gameLoopStep_proj`. -/
lemma appStep_proj (s : AppState) (st : AppStep) :
    ((appStep s st).1.currentInput.sequence = s.currentInput.sequence ∧
     (appStep s st).2 = none) ∨
    ((appStep s st).1.currentInput.sequence = s.currentInput.sequence + 1 ∧
     ∀ u ∈ (appStep s st).2,
       u.input.sequence = s.currentInput.sequence + 1) := by
  cases st with
  | keyDown code =>
    left
    refine ⟨?_, rfl⟩
    cases code <;> simp [appStep, handleKeyDown, keyMap, setAction]
  | keyUp code =>
    left
    refine ⟨?_, rfl⟩
    cases code <;> simp [appStep, handleKeyUp, keyMap, setAction]
  | mouseDown => exact Or.inl ⟨rfl, rfl⟩
  | mouseUp => exact Or.inl ⟨rfl, rfl⟩
  | mouseMove dx dy locked =>
    left
    refine ⟨?_, rfl⟩
    show (handleMouseMove dx dy locked s).currentInput.sequence = _
    unfold handleMouseMove
    split <;> rfl
  | frame now =>
    rcases gameLoopStep_proj s now with ⟨h1, h2⟩ | ⟨h1, h2⟩
    · exact Or.inl ⟨by show (gameLoopStep s now).1.currentInput.sequence = _; rw [h1], h2⟩
    · exact Or.inr ⟨h1, h2⟩

/-- Over any run of the interactive client, the current sequence number
    never decreases, every transmitted sequence number exceeds the initial
    one, and the transmitted sequence numbers are pairwise strictly
    increasing in transmission order. -/
lemma runApp_spec (steps : List AppStep) : ∀ s : AppState,
    s.currentInput.sequence ≤ (runApp s steps).1.currentInput.sequence ∧
    (∀ u ∈ (runApp s steps).2, s.currentInput.sequence < u.input.sequence) ∧
    List.Pairwise (· < ·) ((runApp s steps).2.map (fun u => u.input.sequence)) := by
  induction steps with
  | nil =>
    intro s
    exact ⟨le_refl _, by simp [runApp], by simp [runApp]⟩
  | cons st steps ih =>
    intro s
    obtain ⟨ihle, ihmem, ihpw⟩ := ih (appStep s st).1
    have hrun1 : (runApp s (st :: steps)).1 = (runApp (appStep s st).1 steps).1 := rfl
    have hrun2 : (runApp s (st :: steps)).2 =
        (appStep s st).2.toList ++ (runApp (appStep s st).1 steps).2 := rfl
    rw [hrun1, hrun2]
    rcases appStep_proj s st with ⟨hseq, hnone⟩ | ⟨hseq, hout⟩
    · rw [hseq] at ihle ihmem
      rw [hnone]
      simp only [Option.toList_none, List.nil_append]
      exact ⟨ihle, ihmem, ihpw⟩
    · rw [hseq] at ihle ihmem
      cases ho : (appStep s st).2 with
      | none =>
        simp only [Option.toList_none, List.nil_append]
        refine ⟨le_trans (Nat.le_succ _) ihle, ?_, ihpw⟩
        intro v hv
        have := ihmem v hv
        omega
      | some u =>
        have huseq : u.input.sequence = s.currentInput.sequence + 1 :=
          hout u (by simp [ho])
        simp only [Option.toList_some, List.singleton_append, List.map_cons]
        refine ⟨le_trans (Nat.le_succ _) ihle, ?_, ?_⟩
        · intro v hv
          rcases List.mem_cons.mp hv with hv1 | hv2
          · rw [hv1, huseq]; omega
          · have := ihmem v hv2; omega
        · rw [List.pairwise_cons]
          refine ⟨?_, ihpw⟩
          intro y hy
          obtain ⟨w, hw, hwy⟩ := List.mem_map.mp hy
          have := ihmem w hw
          rw [huseq, ← hwy]
          omega

/-- C1: for every session — a bot driver session run over any list of tick
    firings, and an interactive-client session run over any list of
    event-loop steps — the sequence numbers of the ControlStates actually
    transmitted via `updatePlayerInput` are pairwise strictly increasing:
    every later transmission carries a strictly greater sequence number
    than every earlier one. -/
theorem c1_transmitted_sequences_strictly_increase (s : ClientState)
    (rs : List BotRand) (a : AppState) (steps : List AppStep) :
    List.Pairwise (· < ·) ((runClient s rs).2.map (fun u => u.input.sequence)) ∧
    List.Pairwise (· < ·) ((runApp a steps).2.map (fun u => u.input.sequence)) :=
  ⟨(runClient_spec rs s).2.2, (runApp_spec steps a).2.2⟩

end Vibe
